import Mathlib

/-!
Verification development for a two-script data-wrangling repository.

Pipeline A (`space titanic.py`): `TitanicMerger.merge_files` concatenates two
CSV files (header written once, from the first file), and `TitanicAnalyzer`
derives a decade age bucket `(Age // 10) * 10` and plots the mean of the
0/1-coded `Transported` column per bucket.

Pipeline B (`quiz2/gendercsv.py`): `load_long_form_dataframe` melts a wide
sentinel-coded CSV into a tidy long form, `aggregate_general_households`
builds three grouped/sorted aggregate tables, `plot_gender_age` renders a
line chart, and `build_report` formats a fixed-template text report.

The embedding models pandas cells as an inductive `Cell` (missing / string /
numeric), numeric values as `ℚ` (an exact idealisation of the scripts'
float64 arithmetic), raised exceptions as `none` of an `Option` result, and
pandas' stable multi-key sorts (`numpy.lexsort`) as a stable insertion sort
with an explicit boolean lexicographic comparator.
-/

/-- Keep the first occurrence of each element, dropping later duplicates;
models `pandas.Series.drop_duplicates` (which keeps first occurrences).
`seen` accumulates the elements already emitted. -/
def dropDuplicatesAux [DecidableEq α] (seen : List α) : List α → List α
  | [] => []
  | a :: as =>
    if a ∈ seen then dropDuplicatesAux seen as
    else a :: dropDuplicatesAux (a :: seen) as

/-- First-occurrence deduplication (pandas `drop_duplicates`). -/
def dropDuplicates [DecidableEq α] (l : List α) : List α := dropDuplicatesAux [] l

/-- Insert `a` into `l` before the first element `b` with `le a b`.
Building block of the stable sort `sortL`. -/
def insertSorted (le : α → α → Bool) (a : α) : List α → List α
  | [] => [a]
  | b :: bs => if le a b then a :: b :: bs else b :: insertSorted le a bs

/-- Stable insertion sort. Models the stable multi-key sort used by pandas
`sort_values` with a list of keys (`numpy.lexsort`, a stable sort) and the
sorted group keys produced by `groupby(sort=True)`: equal-key elements keep
their relative input order. -/
def sortL (le : α → α → Bool) : List α → List α
  | [] => []
  | a :: as => insertSorted le a (sortL le as)

/-- Boolean test that `pat` is a leading segment of the second list. -/
def leadsWith [DecidableEq α] : List α → List α → Bool
  | [], _ => true
  | _ :: _, [] => false
  | a :: as, b :: bs => decide (a = b) && leadsWith as bs

/-- Boolean test that `pat` occurs contiguously somewhere in `l`. -/
def occursIn [DecidableEq α] (pat : List α) : List α → Bool
  | [] => leadsWith pat []
  | b :: bs => leadsWith pat (b :: bs) || occursIn pat bs

/-- One pandas cell of the wide CSV after `read_csv`: missing (`NaN`/`NA`),
a string that does not parse as a number, or a value that `pd.to_numeric`
coerces to the rational `v` (exact idealisation of float64). -/
inductive Cell where
  | na : Cell
  | str : String → Cell
  | num : ℚ → Cell
deriving DecidableEq, Repr

/-- The sentinel replacement `data_rows.replace({"X": pd.NA, "-": pd.NA})`
applied to one cell. -/
def replaceSentinel : Cell → Cell
  | Cell.str "X" => Cell.na
  | Cell.str "-" => Cell.na
  | c => c

/-- `pd.to_numeric(col, errors="coerce")` on one cell: numeric cells keep
their value, everything else becomes missing. -/
def toNumericCell : Cell → Option ℚ
  | Cell.num v => some v
  | _ => none

/-- Cell of row `r` at column position `i`; positions past the end of the
row are the missing values `read_csv` fills in for short CSV lines. -/
def cellAt (r : List Cell) (i : ℕ) : Cell := r.getD i Cell.na

/-- A wide table as produced by `pd.read_csv`: the (mangled, hence unique)
column names and all rows, including the metric-name header row that the
loader treats as row 0 of the data body. -/
structure WideTable where
  cols : List String
  rows : List (List Cell)

/-- One row of a per-column long frame before `dropna(subset=["값"])`:
identifiers, year, metric name (a raw header-row cell) and optional value. -/
structure LongRow0 where
  region : Cell
  gender : Cell
  age : Cell
  year : ℤ
  metric : Cell
  value : Option ℚ
deriving DecidableEq, Repr

/-- One row of the tidy long-form output (after the drop-missing step). -/
structure LongRow where
  region : Cell
  gender : Cell
  age : Cell
  year : ℤ
  metric : Cell
  value : ℚ
deriving DecidableEq, Repr

/-- Accumulator-style decimal parse of a digit list; `none` on the first
non-digit character (Python `int` raises). -/
def parseNatDigits (acc : ℕ) : List Char → Option ℕ
  | [] => some acc
  | ch :: cs =>
    if decide (('0' : Char) ≤ ch ∧ ch ≤ ('9' : Char))
      then parseNatDigits (acc * 10 + (ch.toNat - ('0' : Char).toNat)) cs
      else none

/-- Python `int(...)` on a character sequence: an optional sign followed by
at least one digit (the whitespace/underscore tolerance of `int` is not
modelled; the pipeline's column names carry none). -/
def parseIntChars : List Char → Option ℤ
  | [] => none
  | '-' :: cs => if cs.isEmpty then none else (parseNatDigits 0 cs).map (fun n => -(n : ℤ))
  | '+' :: cs => if cs.isEmpty then none else (parseNatDigits 0 cs).map (fun n => (n : ℤ))
  | cs => (parseNatDigits 0 cs).map (fun n => (n : ℤ))

/-- `int(column.split(".")[0])`: the integer year parsed from the characters
of a year-column name before the first `.` (pandas mangles repeated year
headers into `"<year>.<k>"`). `none` models the `ValueError` raised by
`int`. -/
def yearOfColumn (name : String) : Option ℤ :=
  parseIntChars (name.data.takeWhile (fun ch => decide (ch ≠ '.')))

/-- The long frame built for the year column at position `i` (applied to the
sentinel-replaced data rows): identifiers from columns 0–2, the constant
year, the metric name from the (unreplaced) header row, and the coerced
value. -/
def frameFor (headerRow : List Cell) (dataRowsRepl : List (List Cell)) (i : ℕ) (year : ℤ) :
    List LongRow0 :=
  dataRowsRepl.map (fun r =>
    ⟨cellAt r 0, cellAt r 1, cellAt r 2, year, cellAt headerRow i, toNumericCell (cellAt r i)⟩)

/-- The loader's `for column in data_rows.columns[3:]` loop: one frame per
year column, starting at column position `i`; `none` when some year prefix
fails to parse (the loop raises). -/
def buildFrames (headerRow : List Cell) (dataRowsRepl : List (List Cell)) :
    ℕ → List String → Option (List (List LongRow0))
  | _, [] => some []
  | i, c :: cs =>
    match yearOfColumn c, buildFrames headerRow dataRowsRepl (i + 1) cs with
    | some year, some rest => some (frameFor headerRow dataRowsRepl i year :: rest)
    | _, _ => none

/-- `dropna(subset=["값"])` over a concatenated long frame: keep exactly the
rows whose value is present. -/
def dropnaValue (l : List LongRow0) : List LongRow :=
  l.filterMap (fun r => r.value.map (fun v =>
    ⟨r.region, r.gender, r.age, r.year, r.metric, v⟩))

/-- `load_long_form_dataframe`: rename the first three columns (raises, i.e.
`none`, when fewer than 3 columns exist), take row 0 as the metric-name
header row (raises on an empty table), melt each year column (raises when a
year prefix does not parse), concatenate (raises, via `pd.concat([])`, when
there is no year column) and drop rows with a missing value. -/
def load_long_form_dataframe (t : WideTable) : Option (List LongRow) :=
  if t.cols.length < 3 then none
  else
    match t.rows with
    | [] => none
    | headerRow :: dataRows =>
      let yearCols := t.cols.drop 3
      if yearCols.isEmpty then none
      else
        match buildFrames headerRow (dataRows.map (fun r => r.map replaceSentinel)) 3 yearCols with
        | none => none
        | some frames => some (dropnaValue frames.flatten)

/-- Whether the cell of `r` in the year column at position `i` survives
sentinel replacement and numeric coercion. -/
def coercibleAt (r : List Cell) (i : ℕ) : Bool :=
  (toNumericCell (replaceSentinel (cellAt r i))).isSome

/-- A data row all of whose `n` year-column values are coercible. -/
def rowAllCoercible (n : ℕ) (r : List Cell) : Bool :=
  (List.range n).all (fun j => coercibleAt r (3 + j))

/-- A data row none of whose `n` year-column values are coercible. -/
def rowNoneCoercible (n : ℕ) (r : List Cell) : Bool :=
  (List.range n).all (fun j => !coercibleAt r (3 + j))

/-- Sum of the long-form values at a given (year, metric) pair. -/
def longSumAt (out : List LongRow) (y : ℤ) (m : Cell) : ℚ :=
  ((out.filter (fun r => decide (r.year = y ∧ r.metric = m))).map LongRow.value).sum

/-- Sum of the numerically-coercible, non-sentinel values of the wide column
at position `i`, taken over the data rows (header row excluded). -/
def wideColumnSum (dataRows : List (List Cell)) (i : ℕ) : ℚ :=
  (dataRows.filterMap (fun r => toNumericCell (replaceSentinel (cellAt r i)))).sum

/-- One row of the year×gender aggregate. -/
structure GYRow where
  year : ℤ
  gender : Cell
  value : ℚ
deriving DecidableEq, Repr

/-- One row of the year×age aggregate. -/
structure ATRow where
  year : ℤ
  age : Cell
  value : ℚ
deriving DecidableEq, Repr

/-- One row of the year×gender×age aggregate. -/
structure GARow where
  year : ℤ
  gender : Cell
  age : Cell
  value : ℚ
deriving DecidableEq, Repr

/-- The character sequence pandas compares when sorting an object column of
strings (code-point order). Non-string cells map to `[]`: in the aggregator
these columns only ever hold strings (pandas would raise a `TypeError` on a
mixed-type comparison, which the model totalises). -/
def cellChars : Cell → List Char
  | Cell.str s => s.data
  | _ => []

/-- Strict code-point lexicographic order on character lists (Python/pandas
string comparison). -/
def charsLt : List Char → List Char → Bool
  | [], [] => false
  | [], _ :: _ => true
  | _ :: _, [] => false
  | a :: as, b :: bs => decide (a < b) || (decide (a = b) && charsLt as bs)

/-- Non-strict version of `charsLt`. -/
def charsLe (a b : List Char) : Bool := charsLt a b || decide (a = b)

/-- Strict order on `ℤ` as a boolean. -/
def intLt (a b : ℤ) : Bool := decide (a < b)

/-- Non-strict order on `ℕ` as a boolean. -/
def natLe (a b : ℕ) : Bool := decide (a ≤ b)

/-- Lexicographic comparator on pairs: strictly smaller first component, or
equal first components and `leB`-related second components. -/
def pairLe [DecidableEq α] (ltA : α → α → Bool) (leB : β → β → Bool) (x y : α × β) : Bool :=
  ltA x.1 y.1 || (decide (x.1 = y.1) && leB x.2 y.2)

/-- Position of `c` in the ordered categorical `order`; `order.length` (left
of nothing, i.e. sorting last, like `NaN` with `na_position="last"`) when
`c` is not a category. -/
def catIndex (order : List Cell) (c : Cell) : ℕ :=
  match order with
  | [] => 0
  | a :: as => if a = c then 0 else catIndex as c + 1

/-- Sum of the `값` column of a group of long-form rows. -/
def sumValues (rows : List LongRow) : ℚ := (rows.map LongRow.value).sum

/-- `groupby(["연도", "성별"], as_index=False)["값"].sum()` before its key
sort: one row per distinct key in first-occurrence order (rows with a
missing key are dropped, pandas `groupby(dropna=True)`). -/
def groupGY (rows : List LongRow) : List GYRow :=
  let rows := rows.filter (fun r => !decide (r.gender = Cell.na))
  (dropDuplicates (rows.map (fun r => (r.year, r.gender)))).map (fun k =>
    ⟨k.1, k.2, sumValues (rows.filter (fun r => decide ((r.year, r.gender) = k)))⟩)

/-- `groupby(["연도", "연령별"], as_index=False)["값"].sum()` before its key
sort (missing-key rows dropped). -/
def groupAT (rows : List LongRow) : List ATRow :=
  let rows := rows.filter (fun r => !decide (r.age = Cell.na))
  (dropDuplicates (rows.map (fun r => (r.year, r.age)))).map (fun k =>
    ⟨k.1, k.2, sumValues (rows.filter (fun r => decide ((r.year, r.age) = k)))⟩)

/-- `groupby(["연도", "성별", "연령별"], as_index=False)["값"].sum()` before
its key sort (missing-key rows dropped). -/
def groupGA (rows : List LongRow) : List GARow :=
  let rows := rows.filter (fun r => !decide (r.gender = Cell.na ∨ r.age = Cell.na))
  (dropDuplicates (rows.map (fun r => (r.year, r.gender, r.age)))).map (fun k =>
    ⟨k.1, k.2.1, k.2.2, sumValues (rows.filter (fun r => decide ((r.year, r.gender, r.age) = k)))⟩)

/-- Sort key order for `sort_values(["연도", "성별"])` (and for the sorted
group keys of the year×gender groupby): year, then gender string. -/
def gyLe (a b : GYRow) : Bool :=
  pairLe intLt charsLe (a.year, cellChars a.gender) (b.year, cellChars b.gender)

/-- Key order of the sorted year×age groupby output: year, then the age
label as a string. -/
def atGroupLe (a b : ATRow) : Bool :=
  pairLe intLt charsLe (a.year, cellChars a.age) (b.year, cellChars b.age)

/-- Sort key order for `sort_values(["연도", "연령별"])` after the age
column became an ordered categorical: year, then category position. -/
def atLe (order : List Cell) (a b : ATRow) : Bool :=
  pairLe intLt natLe (a.year, catIndex order a.age) (b.year, catIndex order b.age)

/-- Key order of the sorted year×gender×age groupby output: year, gender
string, age label string. -/
def gaGroupLe (a b : GARow) : Bool :=
  pairLe intLt (pairLe charsLt charsLe)
    (a.year, cellChars a.gender, cellChars a.age) (b.year, cellChars b.gender, cellChars b.age)

/-- Sort key order for `sort_values(["연도", "성별", "연령별"])` with the
categorical age column: year, gender string, category position. -/
def gaLe (order : List Cell) (a b : GARow) : Bool :=
  pairLe intLt (pairLe charsLt natLe)
    (a.year, cellChars a.gender, catIndex order a.age)
    (b.year, cellChars b.gender, catIndex order b.age)

/-- The indicator the aggregator restricts to: `지표 == "일반가구원"`. -/
def theIndicator : Cell := Cell.str "일반가구원"

/-- The indicator/year filter of `aggregate_general_households`:
`(지표 == "일반가구원") & (연도 >= 2015)`. -/
def filteredLong (long_df : List LongRow) : List LongRow :=
  long_df.filter (fun r => decide (r.metric = theIndicator ∧ 2015 ≤ r.year))

/-- The age-bucket order established once from the total-gender rows:
first-occurrence order of `연령별` among filtered rows with `성별 == "계"`. -/
def ageOrderOf (long_df : List LongRow) : List Cell :=
  dropDuplicates
    (((filteredLong long_df).filter (fun r => decide (r.gender = Cell.str "계"))).map LongRow.age)

/-- `aggregate_general_households`: filter to the fixed indicator and years
`>= 2015`, establish the age-bucket order from the `계` rows, then build the
three grouped and sorted aggregates. `pd.Categorical(..., categories=age_order)`
raises when a category is null, so a missing age label among the `계` rows
makes the whole call fail (`none`); that check happens after `gender_year`
is built, but the failure discards every partial result, so the model guards
once before assembling the tuple. -/
def aggregate_general_households (long_df : List LongRow) :
    Option (List GYRow × List ATRow × List GARow) :=
  let filtered := filteredLong long_df
  let age_order := ageOrderOf long_df
  let gender_year :=
    sortL gyLe (sortL gyLe (groupGY (filtered.filter (fun r =>
      decide ((r.gender = Cell.str "남자" ∨ r.gender = Cell.str "여자") ∧
        r.age = Cell.str "합계")))))
  let age_totals0 :=
    sortL atGroupLe (groupAT (filtered.filter (fun r => decide (r.gender = Cell.str "계"))))
  let gender_age0 :=
    sortL gaGroupLe (groupGA (filtered.filter (fun r =>
      decide (r.gender = Cell.str "남자" ∨ r.gender = Cell.str "여자"))))
  if Cell.na ∈ age_order then none
  else
    some (gender_year, sortL (atLe age_order) age_totals0, sortL (gaLe age_order) gender_age0)

/-- Round a rational to the nearest integer, ties to even (the rounding
Python's fixed-point formatting applies; exact idealisation of the float
case). -/
def roundHalfEven (q : ℚ) : ℤ :=
  if q - ⌊q⌋ < 1 / 2 then ⌊q⌋
  else if 1 / 2 < q - ⌊q⌋ then ⌊q⌋ + 1
  else if ⌊q⌋ % 2 = 0 then ⌊q⌋ else ⌊q⌋ + 1

/-- Decimal digits of `n`, least significant first; `fuel` bounds the
recursion (call with `fuel = n + 1`). -/
def digitsRev (fuel : ℕ) (n : ℕ) : List ℕ :=
  match fuel with
  | 0 => []
  | f + 1 => if n < 10 then [n] else (n % 10) :: digitsRev f (n / 10)

/-- Insert a thousands separator after every third digit, working over the
least-significant-first digit list; produces reversed characters. -/
def commaRev : List ℕ → ℕ → List Char
  | [], _ => []
  | [d], _ => [Nat.digitChar d]
  | d :: ds, k => if k = 2 then Nat.digitChar d :: ',' :: commaRev ds 0
                  else Nat.digitChar d :: commaRev ds (k + 1)

/-- Decimal rendering of a natural number with `,` thousands separators. -/
def withCommas (n : ℕ) : String := String.mk ((commaRev (digitsRev (n + 1) n) 0).reverse)

/-- Plain decimal rendering of a natural number. -/
def natText (n : ℕ) : String := String.mk ((digitsRev (n + 1) n).reverse.map Nat.digitChar)

/-- Plain decimal rendering of an integer. -/
def intText (n : ℤ) : String := if n < 0 then "-" ++ natText n.natAbs else natText n.toNat

/-- Python's `format(v, ",.0f")`: round to an integer (ties to even) and
render with thousands separators. -/
def fmtComma0 (q : ℚ) : String :=
  if roundHalfEven q < 0 then "-" ++ withCommas (roundHalfEven q).natAbs
  else withCommas (roundHalfEven q).toNat

/-- Python's `format(v, ".1f")`: round to one decimal place (ties to even),
no thousands separators. -/
def fmtFixed1 (q : ℚ) : String :=
  if roundHalfEven (q * 10) < 0 then
    "-" ++ natText ((roundHalfEven (q * 10)).natAbs / 10) ++ "." ++
      natText ((roundHalfEven (q * 10)).natAbs % 10)
  else
    natText ((roundHalfEven (q * 10)).toNat / 10) ++ "." ++
      natText ((roundHalfEven (q * 10)).toNat % 10)

/-- Text interpolated for a cell in `build_report`'s f-string. Only `str`
cells reach this point in the pipeline (age labels); the other cases are
modelling placeholders for Python's `str()` of a non-string value. -/
def cellText : Cell → String
  | Cell.str s => s
  | Cell.na => "<NA>"
  | Cell.num v => fmtFixed1 v

/-- The fixed apology string returned when an input table is empty. -/
def apologyText : String := "가용한 데이터가 부족하여 리포트를 생성할 수 없습니다."

/-- `series.max()` on a list of years (callers guarantee nonemptiness). -/
def listMaxInt (l : List ℤ) : ℤ := l.foldl max (l.headD 0)

/-- `gender_year_df["연도"].max()`. -/
def latestYearOf (gy : List GYRow) : ℤ := listMaxInt (gy.map GYRow.year)

/-- `set_index("성별")["값"].to_dict().get(g, 0)`: the value of the last row
with gender `g` (later dict insertions win), or `0` when no row matches. -/
def dictGet (rows : List GYRow) (g : String) : ℚ :=
  match (rows.filter (fun r => decide (r.gender = Cell.str g))).getLast? with
  | some r => r.value
  | none => 0

/-- The synthetic summary buckets excluded from "main" age groups:
`{"합계", "15~64세", "65세이상"}`. -/
def isSummaryBucket (c : Cell) : Bool :=
  decide (c = Cell.str "합계" ∨ c = Cell.str "15~64세" ∨ c = Cell.str "65세이상")

/-- The year×age rows of the latest year. -/
def latestAgeRows (ats : List ATRow) (y : ℤ) : List ATRow :=
  ats.filter (fun r => decide (r.year = y))

/-- `latest_age_total.loc[연령별 == "합계", "값"].iloc[0]` as a row lookup:
first `합계` row of the latest year, `none` when absent (an `IndexError`). -/
def totalRowOf (ats : List ATRow) (y : ℤ) : Option ATRow :=
  ((latestAgeRows ats y).filter (fun r => decide (r.age = Cell.str "합계"))).head?

/-- First `65세이상` row of the latest year, `none` when absent. -/
def seniorRowOf (ats : List ATRow) (y : ℤ) : Option ATRow :=
  ((latestAgeRows ats y).filter (fun r => decide (r.age = Cell.str "65세이상"))).head?

/-- `main_groups`: latest-year year×age rows without the summary buckets. -/
def mainGroupsOf (ats : List ATRow) (y : ℤ) : List ATRow :=
  (latestAgeRows ats y).filter (fun r => !isSummaryBucket r.age)

/-- The latest-year, non-summary year×gender×age rows of gender `g`. -/
def genderTopRowsOf (ga : List GARow) (y : ℤ) (g : String) : List GARow :=
  ga.filter (fun r => decide (r.year = y ∧ r.gender = Cell.str g) && !isSummaryBucket r.age)

/-- `sort_values("값", ascending=False).iloc[0]`: a row of maximal value;
`none` on an empty frame (an `IndexError`). The single-key pandas sort does
not specify which of several tied rows comes first; the model takes the
earliest, and no claim depends on the tie. -/
def argmaxRow (f : α → ℚ) : List α → Option α
  | [] => none
  | a :: as =>
    match argmaxRow f as with
    | none => some a
    | some b => if f a < f b then some b else some a

/-- `sort_values("값", ascending=True).iloc[0]`: a row of minimal value,
`none` on an empty frame; ties resolved as in `argmaxRow`. -/
def argminRow (f : α → ℚ) : List α → Option α
  | [] => none
  | a :: as =>
    match argminRow f as with
    | none => some a
    | some b => if f b < f a then some b else some a

/-- Everything of the report template strictly before the interpolated
senior ratio; `m` and `f` are the male and female latest-year totals. -/
def reportHeadText (y : ℤ) (total m f : ℚ) (top bottom : ATRow) (maleTop femaleTop : GARow)
    (senior : ℚ) : String :=
  intText y ++ "년 일반가구원 통계 요약\n\n- 전체 일반가구원은 " ++ fmtComma0 total ++
    "명이며, 남자 " ++ fmtComma0 m ++ "명, 여자 " ++ fmtComma0 f ++
    "명으로 여성이 약간 더 많습니다.\n- 연령대별로는 \x27" ++ cellText top.age ++
    "\x27 구간의 일반가구원이 " ++ fmtComma0 top.value ++ "명으로 가장 많고, \x27" ++
    cellText bottom.age ++ "\x27 구간이 " ++ fmtComma0 bottom.value ++
    "명으로 가장 적습니다.\n- 남자는 \x27" ++ cellText maleTop.age ++ "\x27 구간에서 " ++
    fmtComma0 maleTop.value ++ "명으로 가장 많으며, 여자는 \x27" ++ cellText femaleTop.age ++
    "\x27 구간에서 " ++ fmtComma0 femaleTop.value ++
    "명으로 정점을 이룹니다.\n- 65세 이상 일반가구원은 " ++ fmtComma0 senior ++
    "명으로 전체의 "

/-- Everything of the report template strictly after the interpolated senior
ratio and its `%` sign. -/
def reportTailText : String :=
  "를 차지하여 고령 가구원의 비중이 상당합니다.\n\n위 지표를 바탕으로 보면 " ++
  "50대 전후 연령층이 일반가구원의 핵심을 이루고 있으며, 고령층 비중이 꾸준히 " ++
  "높아진다는 점에서 향후 고령 친화 정책과 중장년층 지원 전략이 중요해 보입니다."

/-- The dedented and stripped report template with every formatted value
interpolated: the head, then the one-decimal senior ratio, a percent sign
and the tail. -/
def renderReport (y : ℤ) (total m f : ℚ) (top bottom : ATRow) (maleTop femaleTop : GARow)
    (senior ratio : ℚ) : String :=
  reportHeadText y total m f top bottom maleTop femaleTop senior ++
    (fmtFixed1 ratio ++ ("%" ++ reportTailText))

/-- `build_report`: the apology string when any input table is empty, and
otherwise the filled template; `none` models the `IndexError` raised by the
`iloc[0]` lookups when a required row is absent. -/
def build_report (gy : List GYRow) (ats : List ATRow) (ga : List GARow) : Option String :=
  if gy.isEmpty || ats.isEmpty || ga.isEmpty then some apologyText
  else
    let latest_year := latestYearOf gy
    let latest_gy := gy.filter (fun r => decide (r.year = latest_year))
    match totalRowOf ats latest_year with
    | none => none
    | some total_row =>
      match seniorRowOf ats latest_year with
      | none => none
      | some senior_row =>
        match argmaxRow ATRow.value (mainGroupsOf ats latest_year) with
        | none => none
        | some top_row =>
          match argminRow ATRow.value (mainGroupsOf ats latest_year) with
          | none => none
          | some bottom_row =>
            match argmaxRow GARow.value (genderTopRowsOf ga latest_year "남자") with
            | none => none
            | some male_top =>
              match argmaxRow GARow.value (genderTopRowsOf ga latest_year "여자") with
              | none => none
              | some female_top =>
                some (renderReport latest_year total_row.value
                  (dictGet latest_gy "남자") (dictGet latest_gy "여자")
                  top_row bottom_row male_top female_top senior_row.value
                  (senior_row.value / total_row.value * 100))

/-- `plot_gender_age`: result `some none` is an early return with no file
written, `some (some path)` a saved figure, `none` a raised error (the pivot
raises on duplicate (age, gender) pairs; the chart calls themselves are
abstracted). `ageOrder` stands for the categorical categories carried by the
`연령별` column of the aggregate. -/
def plot_gender_age (_ageOrder : List Cell) (ga : List GARow) : Option (Option String) :=
  if ga.isEmpty then some none
  else
    let latest_year := listMaxInt (ga.map GARow.year)
    let latest_df := ga.filter (fun r => !isSummaryBucket r.age && decide (r.year = latest_year))
    if latest_df.isEmpty then some none
    else
      if decide (List.Nodup (latest_df.map (fun r : GARow => (r.age, r.gender)))) then
        some (some "gender_age_line.png")
      else none

/-- One CSV input of the merger, as the `csv` module reads it: the line
consumed by `next(reader)` and the remaining rows. -/
structure CsvFile where
  header : List String
  rows : List (List String)

/-- One iteration of `merge_files`' file loop: write the header only for the
first file, then append every remaining row. The accumulator carries the
lines written so far and the `first_file` flag. -/
def mergeStep (acc : List (List String) × Bool) (f : CsvFile) : List (List String) × Bool :=
  ((if acc.2 then acc.1 ++ [f.header] else acc.1) ++ f.rows, false)

/-- `TitanicMerger.merge_files`: the rows written to `data.csv` for input
files `f1` (train) and `f2` (test). -/
def merge_files (f1 f2 : CsvFile) : List (List String) :=
  ([f1, f2].foldl mergeStep ([], true)).1

/-- One row of the analyzer's merged table as loaded from `data.csv`:
`Age` (float, possibly missing), `Transported` (boolean, possibly missing),
`Destination` (string, possibly missing). -/
structure PRow where
  age : Option ℚ
  transported : Option Bool
  destination : Option String
deriving DecidableEq, Repr

/-- `df["Transported"].map({True: 1, False: 0})` on one cell: missing stays
missing (and any unmapped value would also become `NaN`). -/
def mapTransported : Option Bool → Option ℚ
  | some true => some 1
  | some false => some 0
  | none => none

/-- `(df["Age"] // 10) * 10` on one cell: float floor division, so the
bucket is `⌊age / 10⌋ * 10`; a missing age yields a missing bucket. -/
def ageGroup : Option ℚ → Option ℚ
  | none => none
  | some a => some ((⌊a / 10⌋ : ℤ) * 10)

/-- Mean of a list of present values, `NaN` (`none`) when none are present
(pandas `mean()` skips missing values). -/
def meanOpt (vals : List ℚ) : Option ℚ :=
  if vals.isEmpty then none else some (vals.sum / (vals.length : ℚ))

/-- The series plotted by `plot_age_transport`:
`df.groupby("AgeGroup")["Transported"].mean()` after the `Transported`
mapping — rows with a missing age have a missing bucket and are dropped by
the groupby; keys are sorted ascending; each group's mean skips missing
transported values. -/
def age_transport_series (rows : List PRow) : List (ℚ × Option ℚ) :=
  let keyed := rows.filterMap (fun r => (ageGroup r.age).map (fun b => (b, mapTransported r.transported)))
  let keys := sortL (fun a b => decide (a ≤ b)) (dropDuplicates (keyed.map Prod.fst))
  keys.map (fun b => (b, meanOpt ((keyed.filter (fun p => decide (p.1 = b))).filterMap Prod.snd)))

/-- C4: for two input CSV files with identical headers, `merge_files`
produces the first file's header exactly once, followed by all rows of file
1 then all rows of file 2 in order — so `1 + R1 + R2` lines with the header
first — and never validates the second file's header (the output does not
depend on it). -/
theorem claim_C4 (f1 f2 : CsvFile) (_hh : f1.header = f2.header) :
    merge_files f1 f2 = f1.header :: (f1.rows ++ f2.rows) ∧
    (merge_files f1 f2).length = 1 + f1.rows.length + f2.rows.length ∧
    (merge_files f1 f2).head? = some f1.header ∧
    ∀ h2 : List String, merge_files f1 ⟨h2, f2.rows⟩ = merge_files f1 f2 := by
  have hmain : merge_files f1 f2 = f1.header :: (f1.rows ++ f2.rows) := by
    simp [merge_files, mergeStep]
  refine ⟨hmain, ?_, ?_, ?_⟩
  · rw [hmain]; simp; omega
  · rw [hmain]; rfl
  · intro h2
    rw [hmain]
    simp [merge_files, mergeStep]

/-- C4 witness: the merge of two concrete two-column files. -/
theorem claim_C4_witness :
    (⟨["a", "b"], [["1", "2"], ["3", "4"]]⟩ : CsvFile).header =
      (⟨["a", "b"], [["5", "6"]]⟩ : CsvFile).header ∧
    merge_files ⟨["a", "b"], [["1", "2"], ["3", "4"]]⟩ ⟨["a", "b"], [["5", "6"]]⟩ =
      ["a", "b"] :: ([["1", "2"], ["3", "4"]] ++ [["5", "6"]]) :=
  ⟨rfl, (claim_C4 ⟨["a", "b"], [["1", "2"], ["3", "4"]]⟩ ⟨["a", "b"], [["5", "6"]]⟩ rfl).1⟩

/-- C6: `build_report` returns exactly the fixed apology string whenever any
of its three input tables is empty, and `plot_gender_age` on an empty
gender×age table returns without writing a file (`some none`: early return,
no error). -/
theorem claim_C6 :
    (∀ (gy : List GYRow) (ats : List ATRow) (ga : List GARow),
      gy = [] ∨ ats = [] ∨ ga = [] → build_report gy ats ga = some apologyText) ∧
    (∀ ageOrder : List Cell, plot_gender_age ageOrder [] = some none) := by
  constructor
  · intro gy ats ga h
    rcases h with h | h | h <;> subst h <;> simp [build_report]
  · intro ageOrder
    rfl

/-- C6 witness: an empty year×gender table with nonempty other tables yields
the apology, and the empty plot is a no-op. -/
theorem claim_C6_witness :
    build_report [] [⟨2015, Cell.str "합계", 10⟩] [⟨2015, Cell.str "남자", Cell.str "합계", 5⟩] =
      some apologyText ∧
    plot_gender_age [] [] = some none :=
  ⟨claim_C6.1 [] [⟨2015, Cell.str "합계", 10⟩] [⟨2015, Cell.str "남자", Cell.str "합계", 5⟩]
      (Or.inl rfl),
    claim_C6.2 []⟩

/-- C7: the analyzer's decade bucket is `⌊age / 10⌋ * 10`, so every age in
`[0, 10)` lands in bucket 0 and age 73 in bucket 70, and a row with a
missing age contributes to no bucket: it is invisible to the grouped mean
series of the transported rate. -/
theorem claim_C7 :
    (∀ a : ℚ, 0 ≤ a → a < 10 → ageGroup (some a) = some 0) ∧
    ageGroup (some 73) = some 70 ∧
    (∀ (r : PRow) (rows : List PRow), r.age = none →
      age_transport_series (r :: rows) = age_transport_series rows) := by
  refine ⟨?_, ?_, ?_⟩
  · intro a h0 h10
    have hfloor : ⌊a / 10⌋ = 0 := by
      rw [Int.floor_eq_zero_iff]
      constructor
      · positivity
      · rw [div_lt_one (by norm_num)]; exact h10
    simp [ageGroup, hfloor]
  · have hfloor : ⌊(73 : ℚ) / 10⌋ = 7 := by
      rw [Int.floor_eq_iff]
      norm_num
    simp [ageGroup, hfloor]
    norm_num
  · intro r rows h
    simp [age_transport_series, List.filterMap_cons, h, ageGroup]

/-- C7 witness: bucket facts at ages 3 and 73, and dropping a concrete
missing-age row. -/
theorem claim_C7_witness :
    ageGroup (some 3) = some 0 ∧
    age_transport_series [⟨none, some true, none⟩, ⟨some 73, some true, none⟩] =
      age_transport_series [⟨some 73, some true, none⟩] :=
  ⟨claim_C7.1 3 (by norm_num) (by norm_num),
    claim_C7.2.2 ⟨none, some true, none⟩ [⟨some 73, some true, none⟩] rfl⟩

/-- C8: a wide table with at most 3 columns — fewer than 3 identifier
columns, or no year-columns beyond the first 3 — makes the loader fail
(propagate an error, `none`) instead of returning a long-form table. -/
theorem claim_C8 (t : WideTable) (h : t.cols.length ≤ 3) :
    load_long_form_dataframe t = none := by
  unfold load_long_form_dataframe
  by_cases h3 : t.cols.length < 3
  · simp [h3]
  · have hdrop : t.cols.drop 3 = [] := by
      apply List.drop_eq_nil_of_le
      omega
    cases hr : t.rows with
    | nil => simp [h3]
    | cons hd tl => simp [h3, hdrop]

/-- C8 witness: a three-column table (no year-columns) is rejected. -/
theorem claim_C8_witness :
    (⟨["a", "b", "c"], [[Cell.num 1]]⟩ : WideTable).cols.length ≤ 3 ∧
    load_long_form_dataframe ⟨["a", "b", "c"], [[Cell.num 1]]⟩ = none :=
  ⟨by decide, claim_C8 ⟨["a", "b", "c"], [[Cell.num 1]]⟩ (by decide)⟩

lemma leadsWith_append_self [DecidableEq α] (p b : List α) : leadsWith p (p ++ b) = true := by
  induction p with
  | nil => rfl
  | cons a as ih => simp [leadsWith, ih]

lemma occursIn_append_self [DecidableEq α] (p b : List α) : occursIn p (p ++ b) = true := by
  cases p with
  | nil => cases b <;> simp [occursIn, leadsWith]
  | cons a as =>
    show occursIn (a :: as) (a :: (as ++ b)) = true
    have h : leadsWith (a :: as) (a :: (as ++ b)) = true := by
      simp [leadsWith, leadsWith_append_self]
    simp [occursIn, h]

lemma occursIn_append_right [DecidableEq α] (p a l : List α) (h : occursIn p l = true) :
    occursIn p (a ++ l) = true := by
  induction a with
  | nil => simpa using h
  | cons x xs ih => simp [occursIn, ih]

lemma occursIn_append_mid [DecidableEq α] (p a b : List α) :
    occursIn p (a ++ (p ++ b)) = true :=
  occursIn_append_right p a (p ++ b) (occursIn_append_self p b)

/-- Substring occurrence for a string split as `pre ++ (mid ++ post)`. -/
lemma strOccursIn_mid (a pre mid post : String) (h : a = pre ++ (mid ++ post)) :
    occursIn mid.data a.data = true := by
  subst h
  simp only [String.data_append]
  exact occursIn_append_mid mid.data pre.data post.data

lemma ne_nil_of_totalRowOf (ats : List ATRow) (y : ℤ) (tr : ATRow)
    (h : totalRowOf ats y = some tr) : ats ≠ [] := by
  intro he
  subst he
  simp [totalRowOf, latestAgeRows] at h

lemma ne_nil_of_maleTop (ga : List GARow) (y : ℤ) (g : String) (mt : GARow)
    (h : argmaxRow GARow.value (genderTopRowsOf ga y g) = some mt) : ga ≠ [] := by
  intro he
  subst he
  simp [genderTopRowsOf, argmaxRow] at h

/-- Successful-path reduction of `build_report`: when every internal lookup
succeeds, the report is the rendered template with those lookups' values. -/
lemma build_report_some (gy : List GYRow) (ats : List ATRow) (ga : List GARow)
    (hgy : gy ≠ []) (tr sr top bot : ATRow) (mt ft : GARow)
    (h1 : totalRowOf ats (latestYearOf gy) = some tr)
    (h2 : seniorRowOf ats (latestYearOf gy) = some sr)
    (h3 : argmaxRow ATRow.value (mainGroupsOf ats (latestYearOf gy)) = some top)
    (h4 : argminRow ATRow.value (mainGroupsOf ats (latestYearOf gy)) = some bot)
    (h5 : argmaxRow GARow.value (genderTopRowsOf ga (latestYearOf gy) "남자") = some mt)
    (h6 : argmaxRow GARow.value (genderTopRowsOf ga (latestYearOf gy) "여자") = some ft) :
    build_report gy ats ga = some (renderReport (latestYearOf gy) tr.value
      (dictGet (gy.filter (fun r => decide (r.year = latestYearOf gy))) "남자")
      (dictGet (gy.filter (fun r => decide (r.year = latestYearOf gy))) "여자")
      top bot mt ft sr.value (sr.value / tr.value * 100)) := by
  have hats : ats ≠ [] := ne_nil_of_totalRowOf ats (latestYearOf gy) tr h1
  have hga : ga ≠ [] := ne_nil_of_maleTop ga (latestYearOf gy) "남자" mt h5
  unfold build_report
  rw [if_neg (by simp [hgy, hats, hga])]
  simp [h1, h2, h3, h4, h5, h6]

/-- C9: non-emptiness of the three aggregate tables does not suffice for a
report: when, at the latest year of the year×gender table, the year×age
table has no `합계` row or no `65세이상` row, or the year×gender×age table
has no non-summary row for `남자` or none for `여자`, `build_report` raises
(`none`) — the empty-table apology is its only guard. -/
theorem claim_C9 (gy : List GYRow) (ats : List ATRow) (ga : List GARow)
    (hgy : gy ≠ []) (hats : ats ≠ []) (hga : ga ≠ [])
    (habsent :
      (latestAgeRows ats (latestYearOf gy)).filter
        (fun r => decide (r.age = Cell.str "합계")) = [] ∨
      (latestAgeRows ats (latestYearOf gy)).filter
        (fun r => decide (r.age = Cell.str "65세이상")) = [] ∨
      genderTopRowsOf ga (latestYearOf gy) "남자" = [] ∨
      genderTopRowsOf ga (latestYearOf gy) "여자" = []) :
    build_report gy ats ga = none := by
  unfold build_report
  rw [if_neg (by simp [hgy, hats, hga])]
  rcases habsent with h | h | h | h
  · simp [totalRowOf, h]
  · cases htr : totalRowOf ats (latestYearOf gy) with
    | none => simp [htr]
    | some tr => simp [htr, seniorRowOf, h]
  · cases htr : totalRowOf ats (latestYearOf gy) with
    | none => simp [htr]
    | some tr =>
      cases hsr : seniorRowOf ats (latestYearOf gy) with
      | none => simp [htr, hsr]
      | some sr =>
        cases htop : argmaxRow ATRow.value (mainGroupsOf ats (latestYearOf gy)) with
        | none => simp [htr, hsr, htop]
        | some top =>
          cases hbot : argminRow ATRow.value (mainGroupsOf ats (latestYearOf gy)) with
          | none => simp [htr, hsr, htop, hbot]
          | some bot => simp [htr, hsr, htop, hbot, h, argmaxRow]
  · cases htr : totalRowOf ats (latestYearOf gy) with
    | none => simp [htr]
    | some tr =>
      cases hsr : seniorRowOf ats (latestYearOf gy) with
      | none => simp [htr, hsr]
      | some sr =>
        cases htop : argmaxRow ATRow.value (mainGroupsOf ats (latestYearOf gy)) with
        | none => simp [htr, hsr, htop]
        | some top =>
          cases hbot : argminRow ATRow.value (mainGroupsOf ats (latestYearOf gy)) with
          | none => simp [htr, hsr, htop, hbot]
          | some bot =>
            cases hmt : argmaxRow GARow.value (genderTopRowsOf ga (latestYearOf gy) "남자") with
            | none => simp [htr, hsr, htop, hbot, hmt]
            | some mt => simp [htr, hsr, htop, hbot, hmt, h, argmaxRow]

/-- C9 witness: nonempty tables whose year×age part lacks a `합계` row for
the latest year make the reporter raise. -/
theorem claim_C9_witness :
    ([⟨2015, Cell.str "남자", (5 : ℚ)⟩] : List GYRow) ≠ [] ∧
    ([⟨2015, Cell.str "0~4세", (3 : ℚ)⟩] : List ATRow) ≠ [] ∧
    ([⟨2015, Cell.str "남자", Cell.str "0~4세", (3 : ℚ)⟩] : List GARow) ≠ [] ∧
    (latestAgeRows [⟨2015, Cell.str "0~4세", (3 : ℚ)⟩]
      (latestYearOf [⟨2015, Cell.str "남자", (5 : ℚ)⟩])).filter
        (fun r => decide (r.age = Cell.str "합계")) = [] ∧
    build_report [⟨2015, Cell.str "남자", (5 : ℚ)⟩] [⟨2015, Cell.str "0~4세", (3 : ℚ)⟩]
      [⟨2015, Cell.str "남자", Cell.str "0~4세", (3 : ℚ)⟩] = none :=
  ⟨by decide, by decide, by decide, by decide,
    claim_C9 _ _ _ (by decide) (by decide) (by decide) (Or.inl (by decide))⟩

lemma dictGet_of_no_row (rows : List GYRow) (g : String)
    (h : rows.filter (fun r => decide (r.gender = Cell.str g)) = []) : dictGet rows g = 0 := by
  simp [dictGet, h]

/-- C5: when every lookup succeeds, `build_report` renders the template with
senior ratio computed as the `65세이상` value divided by the `합계` value
times 100, and the one-decimal rendering of that ratio followed by `%`
occurs verbatim in the report text. -/
theorem claim_C5 (gy : List GYRow) (ats : List ATRow) (ga : List GARow)
    (hgy : gy ≠ []) (tr sr top bot : ATRow) (mt ft : GARow)
    (h1 : totalRowOf ats (latestYearOf gy) = some tr)
    (h2 : seniorRowOf ats (latestYearOf gy) = some sr)
    (h3 : argmaxRow ATRow.value (mainGroupsOf ats (latestYearOf gy)) = some top)
    (h4 : argminRow ATRow.value (mainGroupsOf ats (latestYearOf gy)) = some bot)
    (h5 : argmaxRow GARow.value (genderTopRowsOf ga (latestYearOf gy) "남자") = some mt)
    (h6 : argmaxRow GARow.value (genderTopRowsOf ga (latestYearOf gy) "여자") = some ft) :
    build_report gy ats ga = some (renderReport (latestYearOf gy) tr.value
      (dictGet (gy.filter (fun r => decide (r.year = latestYearOf gy))) "남자")
      (dictGet (gy.filter (fun r => decide (r.year = latestYearOf gy))) "여자")
      top bot mt ft sr.value (sr.value / tr.value * 100)) ∧
    occursIn (fmtFixed1 (sr.value / tr.value * 100) ++ "%").data
      (renderReport (latestYearOf gy) tr.value
        (dictGet (gy.filter (fun r => decide (r.year = latestYearOf gy))) "남자")
        (dictGet (gy.filter (fun r => decide (r.year = latestYearOf gy))) "여자")
        top bot mt ft sr.value (sr.value / tr.value * 100)).data = true := by
  refine ⟨build_report_some gy ats ga hgy tr sr top bot mt ft h1 h2 h3 h4 h5 h6, ?_⟩
  apply strOccursIn_mid _
    (reportHeadText (latestYearOf gy) tr.value
      (dictGet (gy.filter (fun r => decide (r.year = latestYearOf gy))) "남자")
      (dictGet (gy.filter (fun r => decide (r.year = latestYearOf gy))) "여자")
      top bot mt ft sr.value)
    _ reportTailText
  rw [renderReport, String.append_assoc]

def c5gy : List GYRow := [⟨2015, Cell.str "남자", 400⟩, ⟨2015, Cell.str "여자", 600⟩]

def c5ats : List ATRow :=
  [⟨2015, Cell.str "합계", 1000⟩, ⟨2015, Cell.str "65세이상", 250⟩,
   ⟨2015, Cell.str "0~4세", 100⟩, ⟨2015, Cell.str "30~39세", 650⟩]

def c5ga : List GARow :=
  [⟨2015, Cell.str "남자", Cell.str "30~39세", 300⟩,
   ⟨2015, Cell.str "여자", Cell.str "30~39세", 350⟩]

unseal Rat.add Rat.mul Rat.inv Rat.sub in
/-- C5 witness: with grand total 1000 and senior bucket 250 in the latest
year, the generated report contains the text `25.0%`. -/
theorem claim_C5_witness :
    build_report c5gy c5ats c5ga = some (renderReport (latestYearOf c5gy)
      (ATRow.value ⟨2015, Cell.str "합계", 1000⟩)
      (dictGet (c5gy.filter (fun r => decide (r.year = latestYearOf c5gy))) "남자")
      (dictGet (c5gy.filter (fun r => decide (r.year = latestYearOf c5gy))) "여자")
      ⟨2015, Cell.str "30~39세", 650⟩ ⟨2015, Cell.str "0~4세", 100⟩
      ⟨2015, Cell.str "남자", Cell.str "30~39세", 300⟩
      ⟨2015, Cell.str "여자", Cell.str "30~39세", 350⟩
      (ATRow.value ⟨2015, Cell.str "65세이상", 250⟩)
      (ATRow.value ⟨2015, Cell.str "65세이상", 250⟩ / ATRow.value ⟨2015, Cell.str "합계", 1000⟩ * 100)) ∧
    occursIn ("25.0%".data) (renderReport (latestYearOf c5gy)
      (ATRow.value ⟨2015, Cell.str "합계", 1000⟩)
      (dictGet (c5gy.filter (fun r => decide (r.year = latestYearOf c5gy))) "남자")
      (dictGet (c5gy.filter (fun r => decide (r.year = latestYearOf c5gy))) "여자")
      ⟨2015, Cell.str "30~39세", 650⟩ ⟨2015, Cell.str "0~4세", 100⟩
      ⟨2015, Cell.str "남자", Cell.str "30~39세", 300⟩
      ⟨2015, Cell.str "여자", Cell.str "30~39세", 350⟩
      (ATRow.value ⟨2015, Cell.str "65세이상", 250⟩)
      (ATRow.value ⟨2015, Cell.str "65세이상", 250⟩ / ATRow.value ⟨2015, Cell.str "합계", 1000⟩ * 100)).data = true := by
  have h := claim_C5 c5gy c5ats c5ga (by decide)
    ⟨2015, Cell.str "합계", 1000⟩ ⟨2015, Cell.str "65세이상", 250⟩
    ⟨2015, Cell.str "30~39세", 650⟩ ⟨2015, Cell.str "0~4세", 100⟩
    ⟨2015, Cell.str "남자", Cell.str "30~39세", 300⟩
    ⟨2015, Cell.str "여자", Cell.str "30~39세", 350⟩
    (by decide) (by decide) (by decide) (by decide) (by decide) (by decide)
  refine ⟨h.1, ?_⟩
  have e : ("25.0%".data) =
      (fmtFixed1 (ATRow.value ⟨2015, Cell.str "65세이상", 250⟩ /
        ATRow.value ⟨2015, Cell.str "합계", 1000⟩ * 100) ++ "%").data := by decide
  rw [e]
  exact h.2

/-- C10: with the year×gender table nonempty and every other lookup
succeeding, a gender with no row in the latest year does not make
`build_report` fail: that gender's count is reported as `0` (the template's
male and female count arguments) and the rest of the report is rendered
normally. -/
theorem claim_C10 (gy : List GYRow) (ats : List ATRow) (ga : List GARow)
    (hgy : gy ≠ []) (tr sr top bot : ATRow) (mt ft : GARow)
    (h1 : totalRowOf ats (latestYearOf gy) = some tr)
    (h2 : seniorRowOf ats (latestYearOf gy) = some sr)
    (h3 : argmaxRow ATRow.value (mainGroupsOf ats (latestYearOf gy)) = some top)
    (h4 : argminRow ATRow.value (mainGroupsOf ats (latestYearOf gy)) = some bot)
    (h5 : argmaxRow GARow.value (genderTopRowsOf ga (latestYearOf gy) "남자") = some mt)
    (h6 : argmaxRow GARow.value (genderTopRowsOf ga (latestYearOf gy) "여자") = some ft) :
    ((gy.filter (fun r => decide (r.year = latestYearOf gy))).filter
        (fun r => decide (r.gender = Cell.str "남자")) = [] →
      build_report gy ats ga = some (renderReport (latestYearOf gy) tr.value 0
        (dictGet (gy.filter (fun r => decide (r.year = latestYearOf gy))) "여자")
        top bot mt ft sr.value (sr.value / tr.value * 100))) ∧
    ((gy.filter (fun r => decide (r.year = latestYearOf gy))).filter
        (fun r => decide (r.gender = Cell.str "여자")) = [] →
      build_report gy ats ga = some (renderReport (latestYearOf gy) tr.value
        (dictGet (gy.filter (fun r => decide (r.year = latestYearOf gy))) "남자") 0
        top bot mt ft sr.value (sr.value / tr.value * 100))) := by
  have h := build_report_some gy ats ga hgy tr sr top bot mt ft h1 h2 h3 h4 h5 h6
  constructor
  · intro habs
    rwa [dictGet_of_no_row _ _ habs] at h
  · intro habs
    rwa [dictGet_of_no_row _ _ habs] at h

def c10gy : List GYRow := [⟨2015, Cell.str "여자", 600⟩]

/-- C10 witness: a year×gender table with only a `여자` row still produces a
report, with the male count rendered from `0`. -/
theorem claim_C10_witness :
    (c10gy.filter (fun r => decide (r.year = latestYearOf c10gy))).filter
        (fun r => decide (r.gender = Cell.str "남자")) = [] ∧
    build_report c10gy c5ats c5ga = some (renderReport (latestYearOf c10gy)
      (ATRow.value ⟨2015, Cell.str "합계", 1000⟩) 0
      (dictGet (c10gy.filter (fun r => decide (r.year = latestYearOf c10gy))) "여자")
      ⟨2015, Cell.str "30~39세", 650⟩ ⟨2015, Cell.str "0~4세", 100⟩
      ⟨2015, Cell.str "남자", Cell.str "30~39세", 300⟩
      ⟨2015, Cell.str "여자", Cell.str "30~39세", 350⟩
      (ATRow.value ⟨2015, Cell.str "65세이상", 250⟩)
      (ATRow.value ⟨2015, Cell.str "65세이상", 250⟩ / ATRow.value ⟨2015, Cell.str "합계", 1000⟩ * 100)) :=
  ⟨by decide,
    (claim_C10 c10gy c5ats c5ga (by decide)
      ⟨2015, Cell.str "합계", 1000⟩ ⟨2015, Cell.str "65세이상", 250⟩
      ⟨2015, Cell.str "30~39세", 650⟩ ⟨2015, Cell.str "0~4세", 100⟩
      ⟨2015, Cell.str "남자", Cell.str "30~39세", 300⟩
      ⟨2015, Cell.str "여자", Cell.str "30~39세", 350⟩
      (by decide) (by decide) (by decide) (by decide) (by decide) (by decide)).1 (by decide)⟩

lemma cellAt_map_replace (r : List Cell) (i : ℕ) :
    cellAt (r.map replaceSentinel) i = replaceSentinel (cellAt r i) :=
  List.getD_map r Cell.na replaceSentinel

lemma dropnaValue_append (l1 l2 : List LongRow0) :
    dropnaValue (l1 ++ l2) = dropnaValue l1 ++ dropnaValue l2 :=
  List.filterMap_append l1 l2 _

lemma dropnaValue_length (l : List LongRow0) :
    (dropnaValue l).length = l.countP (fun r => r.value.isSome) := by
  induction l with
  | nil => rfl
  | cons a as ih =>
    simp only [dropnaValue] at ih ⊢
    cases hv : a.value with
    | none => simp [List.filterMap_cons, hv, List.countP_cons, ih]
    | some v => simp [List.filterMap_cons, hv, List.countP_cons, ih]

/-- Per-column row count contributed to the long form by the columns `cs`,
starting at column position `i`, over the (already sentinel-replaced) data
rows `dr`. -/
def colsCount (dr : List (List Cell)) : ℕ → List String → ℕ
  | _, [] => 0
  | i, _ :: cs =>
    dr.countP (fun r => (toNumericCell (cellAt r i)).isSome) + colsCount dr (i + 1) cs

lemma frameFor_count (hr : List Cell) (dr : List (List Cell)) (i : ℕ) (yr : ℤ) :
    (dropnaValue (frameFor hr dr i yr)).length =
      dr.countP (fun r => (toNumericCell (cellAt r i)).isSome) := by
  rw [dropnaValue_length, frameFor, List.countP_map]
  rfl

lemma buildFrames_flatten_length (hr : List Cell) (dr : List (List Cell)) :
    ∀ (i : ℕ) (cs : List String) (frames : List (List LongRow0)),
      buildFrames hr dr i cs = some frames →
      (dropnaValue frames.flatten).length = colsCount dr i cs := by
  intro i cs
  induction cs generalizing i with
  | nil =>
    intro frames h
    simp only [buildFrames, Option.some.injEq] at h
    subst h
    rfl
  | cons c cs ih =>
    intro frames h
    simp only [buildFrames] at h
    cases hy : yearOfColumn c with
    | none => rw [hy] at h; cases h
    | some yr =>
      rw [hy] at h
      cases hb : buildFrames hr dr (i + 1) cs with
      | none => rw [hb] at h; cases h
      | some rest =>
        rw [hb] at h
        cases h
        rw [List.flatten_cons, dropnaValue_append, List.length_append, frameFor_count,
          ih (i + 1) rest hb]
        rfl

lemma colsCount_const (dr : List (List Cell)) (K : ℕ) :
    ∀ (i : ℕ) (cs : List String),
      (∀ j, j < cs.length →
        dr.countP (fun r => (toNumericCell (cellAt r (i + j))).isSome) = K) →
      colsCount dr i cs = cs.length * K := by
  intro i cs
  induction cs generalizing i with
  | nil => intro _; simp [colsCount]
  | cons c cs ih =>
    intro h
    have h0 := h 0 (by simp)
    rw [Nat.add_zero] at h0
    have htail : colsCount dr (i + 1) cs = cs.length * K := by
      apply ih
      intro j hj
      have := h (j + 1) (by simpa using Nat.succ_lt_succ hj)
      rwa [show i + (j + 1) = i + 1 + j by omega] at this
    show dr.countP _ + colsCount dr (i + 1) cs = (cs.length + 1) * K
    rw [h0, htail]
    ring

/-- Elimination of a successful loader run into its internal frames. -/
lemma load_some_elim (t : WideTable) (headerRow : List Cell) (dataRows : List (List Cell))
    (out : List LongRow) (hrows : t.rows = headerRow :: dataRows)
    (hload : load_long_form_dataframe t = some out) :
    ∃ frames,
      buildFrames headerRow (dataRows.map (fun r => r.map replaceSentinel)) 3
        (t.cols.drop 3) = some frames ∧
      out = dropnaValue frames.flatten := by
  unfold load_long_form_dataframe at hload
  rw [hrows] at hload
  by_cases h3 : t.cols.length < 3
  · simp [h3] at hload
  · simp only [h3, if_false] at hload
    by_cases hemp : (t.cols.drop 3).isEmpty
    · simp [hemp] at hload
    · simp only [hemp, Bool.false_eq_true, if_false] at hload
      cases hb : buildFrames headerRow (dataRows.map (fun r => r.map replaceSentinel)) 3
          (t.cols.drop 3) with
      | none => rw [hb] at hload; cases hload
      | some frames =>
        rw [hb] at hload
        exact ⟨frames, rfl, (Option.some.inj hload).symm⟩

/-- C1: when the loader succeeds on a table whose data rows are uniform
(each row's year-column values are either all coercible or all missing
after sentinel replacement), the long-form output has exactly (number of
all-coercible data rows) × (number of year-columns) rows; the header row is
the consumed row 0 and the count ranges over the remaining data rows only. -/
theorem claim_C1 (t : WideTable) (headerRow : List Cell) (dataRows : List (List Cell))
    (hrows : t.rows = headerRow :: dataRows) (out : List LongRow)
    (hload : load_long_form_dataframe t = some out)
    (huni : ∀ r ∈ dataRows, rowAllCoercible (t.cols.drop 3).length r = true ∨
      rowNoneCoercible (t.cols.drop 3).length r = true) :
    out.length =
      dataRows.countP (rowAllCoercible (t.cols.drop 3).length) * (t.cols.drop 3).length := by
  obtain ⟨frames, hb, hout⟩ := load_some_elim t headerRow dataRows out hrows hload
  subst hout
  rw [buildFrames_flatten_length _ _ 3 _ frames hb]
  rw [colsCount_const (dataRows.map (fun r => r.map replaceSentinel))
    (dataRows.countP (rowAllCoercible (t.cols.drop 3).length)) 3 (t.cols.drop 3) ?_]
  · ring
  · intro j hj
    rw [List.countP_map]
    apply List.countP_congr
    intro r hr
    show ((toNumericCell (cellAt (r.map replaceSentinel) (3 + j))).isSome = true) ↔
      (rowAllCoercible (t.cols.drop 3).length r = true)
    rw [cellAt_map_replace]
    rcases huni r hr with hall | hnone
    · constructor
      · intro _; exact hall
      · intro _
        have := (List.all_eq_true.1 hall) j (List.mem_range.2 hj)
        simpa [coercibleAt] using this
    · have hcj := (List.all_eq_true.1 hnone) j (List.mem_range.2 hj)
      simp only [Bool.not_eq_eq_eq_not, Bool.not_true] at hcj
      constructor
      · intro hc
        exfalso
        have : coercibleAt r (3 + j) = true := by simpa [coercibleAt] using hc
        rw [this] at hcj
        cases hcj
      · intro hall
        have := (List.all_eq_true.1 hall) j (List.mem_range.2 hj)
        simpa [coercibleAt] using this

def c1hdr : List Cell :=
  [Cell.str "행정구역별", Cell.str "성별", Cell.str "연령별",
   Cell.str "일반가구원", Cell.str "일반가구원"]

def c1data : List (List Cell) :=
  [[Cell.str "서울", Cell.str "계", Cell.str "합계", Cell.num 10, Cell.num 20],
   [Cell.str "부산", Cell.str "계", Cell.str "합계", Cell.str "X", Cell.str "-"]]

def c1t : WideTable := ⟨["A", "B", "C", "2015", "2016.1"], c1hdr :: c1data⟩

def c1out : List LongRow :=
  [⟨Cell.str "서울", Cell.str "계", Cell.str "합계", 2015, Cell.str "일반가구원", 10⟩,
   ⟨Cell.str "서울", Cell.str "계", Cell.str "합계", 2016, Cell.str "일반가구원", 20⟩]

/-- C1 witness: a 2-year-column table with one fully coercible data row and
one fully sentinel row yields a long form of 1 × 2 rows. -/
theorem claim_C1_witness :
    load_long_form_dataframe c1t = some c1out ∧
    (∀ r ∈ c1data, rowAllCoercible (c1t.cols.drop 3).length r = true ∨
      rowNoneCoercible (c1t.cols.drop 3).length r = true) ∧
    c1out.length =
      c1data.countP (rowAllCoercible (c1t.cols.drop 3).length) * (c1t.cols.drop 3).length :=
  ⟨by decide, by decide, claim_C1 c1t c1hdr c1data rfl c1out (by decide) (by decide)⟩

/-- Sum, over the columns `cs` starting at position `i` whose parsed year
is `y` and whose header-row metric cell is `m`, of the column's coercible
values (over the already-replaced data rows `dr`). -/
def matchingColsSum (hr : List Cell) (dr : List (List Cell)) (y : ℤ) (m : Cell) :
    ℕ → List String → ℚ
  | _, [] => 0
  | i, c :: cs =>
    (if yearOfColumn c = some y ∧ cellAt hr i = m
      then (dr.filterMap (fun r => toNumericCell (cellAt r i))).sum else 0) +
    matchingColsSum hr dr y m (i + 1) cs

lemma dropnaValue_frame_values (hr : List Cell) (dr : List (List Cell)) (i : ℕ) (yr : ℤ) :
    (dropnaValue (frameFor hr dr i yr)).map LongRow.value =
      dr.filterMap (fun r => toNumericCell (cellAt r i)) := by
  induction dr with
  | nil => rfl
  | cons r dr ih =>
    simp only [frameFor, List.map_cons, dropnaValue, List.filterMap_cons] at ih ⊢
    cases hv : toNumericCell (cellAt r i) with
    | none => simpa [hv] using ih
    | some v => simpa [hv] using ih

lemma mem_dropnaValue_frame (hr : List Cell) (dr : List (List Cell)) (i : ℕ) (yr : ℤ)
    (x : LongRow) (hx : x ∈ dropnaValue (frameFor hr dr i yr)) :
    x.year = yr ∧ x.metric = cellAt hr i := by
  obtain ⟨r0, hr0, hg⟩ := List.mem_filterMap.1 hx
  obtain ⟨r, _, hmk⟩ := List.mem_map.1 hr0
  subst hmk
  cases hv : toNumericCell (cellAt r i) with
  | none => simp [hv] at hg
  | some v =>
    simp only [hv, Option.map_some] at hg
    cases hg
    exact ⟨rfl, rfl⟩

lemma longSum_frame (hr : List Cell) (dr : List (List Cell)) (i : ℕ) (yr : ℤ) (y : ℤ) (m : Cell) :
    longSumAt (dropnaValue (frameFor hr dr i yr)) y m =
      if yr = y ∧ cellAt hr i = m
        then (dr.filterMap (fun r => toNumericCell (cellAt r i))).sum else 0 := by
  by_cases hc : yr = y ∧ cellAt hr i = m
  · rw [if_pos hc]
    unfold longSumAt
    rw [List.filter_eq_self.2 ?_, dropnaValue_frame_values]
    intro x hx
    obtain ⟨h1, h2⟩ := mem_dropnaValue_frame hr dr i yr x hx
    simp [h1, h2, hc.1, hc.2]
  · rw [if_neg hc]
    unfold longSumAt
    rw [List.filter_eq_nil_iff.2 ?_]
    · rfl
    · intro x hx
      obtain ⟨h1, h2⟩ := mem_dropnaValue_frame hr dr i yr x hx
      simp only [decide_eq_true_eq]
      intro hcon
      exact hc ⟨h1 ▸ hcon.1, h2 ▸ hcon.2⟩

lemma longSumAt_append (l1 l2 : List LongRow) (y : ℤ) (m : Cell) :
    longSumAt (l1 ++ l2) y m = longSumAt l1 y m + longSumAt l2 y m := by
  unfold longSumAt
  rw [List.filter_append, List.map_append, List.sum_append]

lemma buildFrames_longSum (hr : List Cell) (dr : List (List Cell)) (y : ℤ) (m : Cell) :
    ∀ (i : ℕ) (cs : List String) (frames : List (List LongRow0)),
      buildFrames hr dr i cs = some frames →
      longSumAt (dropnaValue frames.flatten) y m = matchingColsSum hr dr y m i cs := by
  intro i cs
  induction cs generalizing i with
  | nil =>
    intro frames h
    simp only [buildFrames, Option.some.injEq] at h
    subst h
    rfl
  | cons c cs ih =>
    intro frames h
    simp only [buildFrames] at h
    cases hy : yearOfColumn c with
    | none => rw [hy] at h; cases h
    | some yr =>
      rw [hy] at h
      cases hb : buildFrames hr dr (i + 1) cs with
      | none => rw [hb] at h; cases h
      | some rest =>
        rw [hb] at h
        cases h
        rw [List.flatten_cons, dropnaValue_append, longSumAt_append, longSum_frame,
          ih (i + 1) rest hb]
        simp only [matchingColsSum, hy, Option.some.injEq]

lemma matchingColsSum_nomatch (hr : List Cell) (dr : List (List Cell)) (y : ℤ) (m : Cell) :
    ∀ (i : ℕ) (cs : List String),
      (∀ j, j < cs.length →
        ¬(yearOfColumn (cs.getD j "") = some y ∧ cellAt hr (i + j) = m)) →
      matchingColsSum hr dr y m i cs = 0 := by
  intro i cs
  induction cs generalizing i with
  | nil => intro _; rfl
  | cons c cs ih =>
    intro h
    have htail : matchingColsSum hr dr y m (i + 1) cs = 0 := by
      apply ih
      intro j hj
      have := h (j + 1) (by simpa using Nat.succ_lt_succ hj)
      rwa [show i + (j + 1) = i + 1 + j by omega,
        show (c :: cs).getD (j + 1) "" = cs.getD j "" from rfl] at this
    simp only [matchingColsSum]
    rw [if_neg (by simpa using h 0 (by simp)), htail, add_zero]

lemma matchingColsSum_unique (hr : List Cell) (dr : List (List Cell)) (y : ℤ) (m : Cell) :
    ∀ (i : ℕ) (cs : List String) (jstar : ℕ), jstar < cs.length →
      (yearOfColumn (cs.getD jstar "") = some y ∧ cellAt hr (i + jstar) = m) →
      (∀ j, j < cs.length → j ≠ jstar →
        ¬(yearOfColumn (cs.getD j "") = some y ∧ cellAt hr (i + j) = m)) →
      matchingColsSum hr dr y m i cs =
        (dr.filterMap (fun r => toNumericCell (cellAt r (i + jstar)))).sum := by
  intro i cs
  induction cs generalizing i with
  | nil => intro jstar hj; exact absurd hj (by simp)
  | cons c cs ih =>
    intro jstar hj hmatch huniq
    simp only [matchingColsSum]
    cases jstar with
    | zero =>
      have htail : matchingColsSum hr dr y m (i + 1) cs = 0 := by
        apply matchingColsSum_nomatch
        intro j hjlen
        have := huniq (j + 1) (by simpa using Nat.succ_lt_succ hjlen) (by omega)
        rwa [show i + (j + 1) = i + 1 + j by omega,
          show (c :: cs).getD (j + 1) "" = cs.getD j "" from rfl] at this
      rw [if_pos (by simpa using hmatch), htail, add_zero]
      simp
    | succ js =>
      have hhead : ¬(yearOfColumn c = some y ∧ cellAt hr i = m) := by
        simpa using huniq 0 (by simp) (by omega)
      have hmatch2 : yearOfColumn (cs.getD js "") = some y ∧ cellAt hr (i + 1 + js) = m := by
        rwa [show i + 1 + js = i + (js + 1) by omega,
          show cs.getD js "" = (c :: cs).getD (js + 1) "" from rfl]
      have huniq2 : ∀ j, j < cs.length → j ≠ js →
          ¬(yearOfColumn (cs.getD j "") = some y ∧ cellAt hr (i + 1 + j) = m) := by
        intro j hjlen hne
        have := huniq (j + 1) (by simpa using Nat.succ_lt_succ hjlen) (by omega)
        rwa [show i + (j + 1) = i + 1 + j by omega,
          show (c :: cs).getD (j + 1) "" = cs.getD j "" from rfl] at this
      rw [if_neg hhead, ih (i + 1) js (by simpa using Nat.lt_of_succ_lt_succ hj) hmatch2 huniq2,
        zero_add, show i + 1 + js = i + (js + 1) by omega]

/-- C2: when the loader succeeds and a (year, metric) pair identifies a
unique year-column, the sum of the long-form values at that pair equals the
sum of the numerically-coercible, non-sentinel values of that wide column
(over the data rows, header excluded). -/
theorem claim_C2 (t : WideTable) (headerRow : List Cell) (dataRows : List (List Cell))
    (hrows : t.rows = headerRow :: dataRows) (out : List LongRow)
    (hload : load_long_form_dataframe t = some out)
    (y : ℤ) (m : Cell) (j : ℕ) (hj : j < (t.cols.drop 3).length)
    (hmatch : yearOfColumn ((t.cols.drop 3).getD j "") = some y ∧
      cellAt headerRow (3 + j) = m)
    (huniq : ∀ j2, j2 < (t.cols.drop 3).length → j2 ≠ j →
      ¬(yearOfColumn ((t.cols.drop 3).getD j2 "") = some y ∧
        cellAt headerRow (3 + j2) = m)) :
    longSumAt out y m = wideColumnSum dataRows (3 + j) := by
  obtain ⟨frames, hb, hout⟩ := load_some_elim t headerRow dataRows out hrows hload
  subst hout
  rw [buildFrames_longSum headerRow _ y m 3 _ frames hb,
    matchingColsSum_unique headerRow _ y m 3 _ j hj hmatch huniq, wideColumnSum]
  have hfun : ((fun r => toNumericCell (cellAt r (3 + j))) ∘
      (fun r : List Cell => r.map replaceSentinel)) =
      (fun r => toNumericCell (replaceSentinel (cellAt r (3 + j)))) := by
    funext r
    simp [Function.comp, cellAt_map_replace]
  rw [List.filterMap_map, hfun]

/-- C2 witness: on the concrete two-column table, the long-form sum at
(2015, 일반가구원) equals the wide column sum of the first year-column. -/
theorem claim_C2_witness :
    load_long_form_dataframe c1t = some c1out ∧
    longSumAt c1out 2015 (Cell.str "일반가구원") = wideColumnSum c1data (3 + 0) :=
  ⟨by decide,
    claim_C2 c1t c1hdr c1data rfl c1out (by decide) 2015 (Cell.str "일반가구원") 0
      (by decide) (by decide) (by decide)⟩

lemma insertSorted_perm (le : α → α → Bool) (a : α) (l : List α) :
    (insertSorted le a l).Perm (a :: l) := by
  induction l with
  | nil => exact List.Perm.refl _
  | cons b bs ih =>
    by_cases h : le a b = true
    · rw [insertSorted, if_pos h]
    · rw [insertSorted, if_neg h]
      exact (ih.cons b).trans (List.Perm.swap a b bs)

lemma sortL_perm (le : α → α → Bool) (l : List α) : (sortL le l).Perm l := by
  induction l with
  | nil => exact List.Perm.refl _
  | cons a as ih => exact (insertSorted_perm le a (sortL le as)).trans (ih.cons a)

lemma insertSorted_pairwise (le : α → α → Bool)
    (htrans : ∀ a b c, le a b = true → le b c = true → le a c = true)
    (htot : ∀ a b, le a b = true ∨ le b a = true) (a : α) (l : List α)
    (hl : l.Pairwise (fun x y => le x y = true)) :
    (insertSorted le a l).Pairwise (fun x y => le x y = true) := by
  induction l with
  | nil => simp [insertSorted]
  | cons b bs ih =>
    rcases List.pairwise_cons.1 hl with ⟨hb, hbs⟩
    by_cases h : le a b = true
    · rw [insertSorted, if_pos h]
      refine List.pairwise_cons.2 ⟨?_, hl⟩
      intro x hx
      rcases List.mem_cons.1 hx with hxb | hx
      · rw [hxb]
        exact h
      · exact htrans a b x h (hb x hx)
    · rw [insertSorted, if_neg h]
      refine List.pairwise_cons.2 ⟨?_, ih hbs⟩
      intro x hx
      rcases List.mem_cons.1 ((insertSorted_perm le a bs).mem_iff.1 hx) with hxa | hx
      · rw [hxa]
        rcases htot a b with h1 | h1
        · exact absurd h1 h
        · exact h1
      · exact hb x hx

lemma sortL_pairwise (le : α → α → Bool)
    (htrans : ∀ a b c, le a b = true → le b c = true → le a c = true)
    (htot : ∀ a b, le a b = true ∨ le b a = true) (l : List α) :
    (sortL le l).Pairwise (fun x y => le x y = true) := by
  induction l with
  | nil => simp [sortL]
  | cons a as ih => exact insertSorted_pairwise le htrans htot a (sortL le as) ih

lemma charsLt_irrefl (a : List Char) : charsLt a a = false := by
  induction a with
  | nil => rfl
  | cons c cs ih => simp [charsLt, ih]

lemma charsLt_trans : ∀ a b c : List Char,
    charsLt a b = true → charsLt b c = true → charsLt a c = true := by
  intro a
  induction a with
  | nil =>
    intro b c hab hbc
    cases b with
    | nil => cases hab
    | cons y bs =>
      cases c with
      | nil => cases hbc
      | cons z cs => rfl
  | cons x as ih =>
    intro b c hab hbc
    cases b with
    | nil => cases hab
    | cons y bs =>
      cases c with
      | nil => cases hbc
      | cons z cs =>
        simp only [charsLt, Bool.or_eq_true, Bool.and_eq_true, decide_eq_true_eq] at hab hbc ⊢
        rcases hab with h1 | ⟨he1, h1⟩
        · rcases hbc with h2 | ⟨he2, h2⟩
          · exact Or.inl (h1.trans h2)
          · exact Or.inl (he2 ▸ h1)
        · rcases hbc with h2 | ⟨he2, h2⟩
          · exact Or.inl (he1 ▸ h2)
          · exact Or.inr ⟨he1.trans he2, ih bs cs h1 h2⟩

lemma charsLt_tricho : ∀ a b : List Char, charsLt a b = true ∨ a = b ∨ charsLt b a = true := by
  intro a
  induction a with
  | nil =>
    intro b
    cases b with
    | nil => exact Or.inr (Or.inl rfl)
    | cons y bs => exact Or.inl rfl
  | cons x as ih =>
    intro b
    cases b with
    | nil => exact Or.inr (Or.inr rfl)
    | cons y bs =>
      rcases lt_trichotomy x y with h | h | h
      · exact Or.inl (by simp [charsLt, h])
      · subst h
        rcases ih bs with h2 | h2 | h2
        · exact Or.inl (by simp [charsLt, h2])
        · exact Or.inr (Or.inl (by rw [h2]))
        · exact Or.inr (Or.inr (by simp [charsLt, h2]))
      · exact Or.inr (Or.inr (by simp [charsLt, h]))

lemma charsLe_trans : ∀ a b c : List Char,
    charsLe a b = true → charsLe b c = true → charsLe a c = true := by
  intro a b c hab hbc
  simp only [charsLe, Bool.or_eq_true, decide_eq_true_eq] at hab hbc ⊢
  rcases hab with h1 | rfl
  · rcases hbc with h2 | rfl
    · exact Or.inl (charsLt_trans a b c h1 h2)
    · exact Or.inl h1
  · exact hbc

lemma charsLe_total : ∀ a b : List Char, charsLe a b = true ∨ charsLe b a = true := by
  intro a b
  simp only [charsLe, Bool.or_eq_true, decide_eq_true_eq]
  rcases charsLt_tricho a b with h | h | h
  · exact Or.inl (Or.inl h)
  · exact Or.inl (Or.inr h)
  · exact Or.inr (Or.inl h)

lemma natLe_trans : ∀ a b c : ℕ, natLe a b = true → natLe b c = true → natLe a c = true := by
  intro a b c
  simp only [natLe, decide_eq_true_eq]
  omega

lemma natLe_total : ∀ a b : ℕ, natLe a b = true ∨ natLe b a = true := by
  intro a b
  simp only [natLe, decide_eq_true_eq]
  omega

lemma intLt_trans : ∀ a b c : ℤ, intLt a b = true → intLt b c = true → intLt a c = true := by
  intro a b c
  simp only [intLt, decide_eq_true_eq]
  omega

lemma intLt_tricho : ∀ a b : ℤ, intLt a b = true ∨ a = b ∨ intLt b a = true := by
  intro a b
  simp only [intLt, decide_eq_true_eq]
  omega

lemma intLt_irrefl : ∀ a : ℤ, intLt a a = false := by
  intro a
  simp [intLt]

lemma pairLe_trans [DecidableEq α] (ltA : α → α → Bool) (leB : β → β → Bool)
    (hltt : ∀ a b c, ltA a b = true → ltA b c = true → ltA a c = true)
    (hleBt : ∀ x y z, leB x y = true → leB y z = true → leB x z = true) :
    ∀ u v w : α × β, pairLe ltA leB u v = true → pairLe ltA leB v w = true →
      pairLe ltA leB u w = true := by
  intro u v w huv hvw
  simp only [pairLe, Bool.or_eq_true, Bool.and_eq_true, decide_eq_true_eq] at huv hvw ⊢
  rcases huv with h1 | ⟨he1, hb1⟩
  · rcases hvw with h2 | ⟨he2, hb2⟩
    · exact Or.inl (hltt _ _ _ h1 h2)
    · exact Or.inl (he2 ▸ h1)
  · rcases hvw with h2 | ⟨he2, hb2⟩
    · exact Or.inl (he1 ▸ h2)
    · exact Or.inr ⟨he1.trans he2, hleBt _ _ _ hb1 hb2⟩

lemma pairLe_total [DecidableEq α] (ltA : α → α → Bool) (leB : β → β → Bool)
    (htri : ∀ a b, ltA a b = true ∨ a = b ∨ ltA b a = true)
    (hleBtot : ∀ x y, leB x y = true ∨ leB y x = true) :
    ∀ u v : α × β, pairLe ltA leB u v = true ∨ pairLe ltA leB v u = true := by
  intro u v
  simp only [pairLe, Bool.or_eq_true, Bool.and_eq_true, decide_eq_true_eq]
  rcases htri u.1 v.1 with h | h | h
  · exact Or.inl (Or.inl h)
  · rcases hleBtot u.2 v.2 with hb | hb
    · exact Or.inl (Or.inr ⟨h, hb⟩)
    · exact Or.inr (Or.inr ⟨h.symm, hb⟩)
  · exact Or.inr (Or.inl h)

lemma pairLe_of_eq_first [DecidableEq α] (ltA : α → α → Bool) (leB : β → β → Bool)
    (hirr : ∀ a, ltA a a = false) :
    ∀ u v : α × β, pairLe ltA leB u v = true → u.1 = v.1 → leB u.2 v.2 = true := by
  intro u v h he
  simp only [pairLe, Bool.or_eq_true, Bool.and_eq_true, decide_eq_true_eq] at h
  rcases h with h | ⟨_, hb⟩
  · rw [he, hirr] at h
    cases h
  · exact hb

lemma mem_of_mem_dropDuplicatesAux [DecidableEq α] :
    ∀ (seen l : List α) (x : α), x ∈ dropDuplicatesAux seen l → x ∈ l ∧ x ∉ seen := by
  intro seen l
  induction l generalizing seen with
  | nil => intro x hx; simp [dropDuplicatesAux] at hx
  | cons a as ih =>
    intro x hx
    simp only [dropDuplicatesAux] at hx
    by_cases h : a ∈ seen
    · rw [if_pos h] at hx
      obtain ⟨h1, h2⟩ := ih seen x hx
      exact ⟨List.mem_cons_of_mem a h1, h2⟩
    · rw [if_neg h] at hx
      rcases List.mem_cons.1 hx with hxa | hx
      · rw [hxa]
        exact ⟨List.mem_cons_self a as, h⟩
      · obtain ⟨h1, h2⟩ := ih (a :: seen) x hx
        exact ⟨List.mem_cons_of_mem a h1, fun hs => h2 (List.mem_cons_of_mem a hs)⟩

lemma dropDuplicatesAux_nodup [DecidableEq α] :
    ∀ (seen l : List α), (dropDuplicatesAux seen l).Nodup := by
  intro seen l
  induction l generalizing seen with
  | nil => simp [dropDuplicatesAux]
  | cons a as ih =>
    simp only [dropDuplicatesAux]
    by_cases h : a ∈ seen
    · rw [if_pos h]
      exact ih seen
    · rw [if_neg h]
      refine List.nodup_cons.2 ⟨?_, ih (a :: seen)⟩
      intro hmem
      exact (mem_of_mem_dropDuplicatesAux (a :: seen) as a hmem).2 (List.mem_cons_self a seen)

lemma dropDuplicates_nodup [DecidableEq α] (l : List α) : (dropDuplicates l).Nodup :=
  dropDuplicatesAux_nodup [] l

lemma groupAT_keys (rows : List LongRow) :
    (groupAT rows).map (fun r : ATRow => (r.year, r.age)) =
      dropDuplicates ((rows.filter (fun r => !decide (r.age = Cell.na))).map
        (fun r => (r.year, r.age))) := by
  simp only [groupAT]
  rw [List.map_map]
  have hfn : ((fun r : ATRow => (r.year, r.age)) ∘ (fun k : ℤ × Cell =>
      (⟨k.1, k.2, sumValues ((rows.filter (fun r => !decide (r.age = Cell.na))).filter
        (fun r => decide ((r.year, r.age) = k)))⟩ : ATRow))) = id := funext fun k => rfl
  rw [hfn, List.map_id]

lemma groupGA_keys (rows : List LongRow) :
    (groupGA rows).map (fun r : GARow => (r.year, r.gender, r.age)) =
      dropDuplicates ((rows.filter (fun r => !decide (r.gender = Cell.na ∨ r.age = Cell.na))).map
        (fun r => (r.year, r.gender, r.age))) := by
  simp only [groupGA]
  rw [List.map_map]
  have hfn : ((fun r : GARow => (r.year, r.gender, r.age)) ∘ (fun k : ℤ × Cell × Cell =>
      (⟨k.1, k.2.1, k.2.2, sumValues
        (((rows.filter (fun r => !decide (r.gender = Cell.na ∨ r.age = Cell.na)))).filter
          (fun r => decide ((r.year, r.gender, r.age) = k)))⟩ : GARow))) = id :=
    funext fun k => rfl
  rw [hfn, List.map_id]

lemma atLe_trans (order : List Cell) : ∀ a b c : ATRow,
    atLe order a b = true → atLe order b c = true → atLe order a c = true :=
  fun _ _ _ hab hbc =>
    pairLe_trans intLt natLe intLt_trans natLe_trans _ _ _ hab hbc

lemma atLe_total (order : List Cell) : ∀ a b : ATRow,
    atLe order a b = true ∨ atLe order b a = true :=
  fun _ _ => pairLe_total intLt natLe intLt_tricho natLe_total _ _

lemma gaLe_trans (order : List Cell) : ∀ a b c : GARow,
    gaLe order a b = true → gaLe order b c = true → gaLe order a c = true :=
  fun _ _ _ hab hbc =>
    pairLe_trans intLt (pairLe charsLt natLe) intLt_trans
      (pairLe_trans charsLt natLe charsLt_trans natLe_trans) _ _ _ hab hbc

lemma gaLe_total (order : List Cell) : ∀ a b : GARow,
    gaLe order a b = true ∨ gaLe order b a = true :=
  fun _ _ => pairLe_total intLt (pairLe charsLt natLe) intLt_tricho
    (pairLe_total charsLt natLe charsLt_tricho natLe_total) _ _

lemma atLe_catIndex (order : List Cell) (a b : ATRow) (h : atLe order a b = true)
    (hy : a.year = b.year) : catIndex order a.age ≤ catIndex order b.age := by
  have h2 := pairLe_of_eq_first intLt natLe intLt_irrefl
    (a.year, catIndex order a.age) (b.year, catIndex order b.age) h hy
  simpa [natLe] using h2

lemma gaLe_catIndex (order : List Cell) (a b : GARow) (h : gaLe order a b = true)
    (hy : a.year = b.year) (hg : a.gender = b.gender) :
    catIndex order a.age ≤ catIndex order b.age := by
  have h2 := pairLe_of_eq_first intLt (pairLe charsLt natLe) intLt_irrefl
    (a.year, cellChars a.gender, catIndex order a.age)
    (b.year, cellChars b.gender, catIndex order b.age) h hy
  have h3 := pairLe_of_eq_first charsLt natLe charsLt_irrefl
    (cellChars a.gender, catIndex order a.age)
    (cellChars b.gender, catIndex order b.age) h2 (by rw [hg])
  simpa [natLe] using h3

lemma aggregate_some_elim (long_df : List LongRow) (gy : List GYRow) (ats : List ATRow)
    (ga : List GARow) (h : aggregate_general_households long_df = some (gy, ats, ga)) :
    ats = sortL (atLe (ageOrderOf long_df)) (sortL atGroupLe (groupAT
        ((filteredLong long_df).filter (fun r => decide (r.gender = Cell.str "계"))))) ∧
    ga = sortL (gaLe (ageOrderOf long_df)) (sortL gaGroupLe (groupGA
        ((filteredLong long_df).filter (fun r =>
          decide (r.gender = Cell.str "남자" ∨ r.gender = Cell.str "여자"))))) := by
  unfold aggregate_general_households at h
  by_cases hna : Cell.na ∈ ageOrderOf long_df
  · simp [hna] at h
  · simp only [hna, if_false, ite_false, Option.some.injEq, Prod.mk.injEq] at h
    exact ⟨h.2.1.symm, h.2.2.symm⟩

/-- Age buckets appear within each year group of the year×age table in the
established categorical order. -/
def bucketOrderAT (order : List Cell) (ats : List ATRow) : Prop :=
  ∀ i j : Fin ats.length, i < j → (ats.get i).year = (ats.get j).year →
    catIndex order (ats.get i).age ≤ catIndex order (ats.get j).age

/-- Age buckets appear within each (year, gender) group of the
year×gender×age table in the established categorical order. -/
def bucketOrderGA (order : List Cell) (ga : List GARow) : Prop :=
  ∀ i j : Fin ga.length, i < j → (ga.get i).year = (ga.get j).year →
    (ga.get i).gender = (ga.get j).gender →
    catIndex order (ga.get i).age ≤ catIndex order (ga.get j).age

/-- C3: the aggregator establishes the age-bucket order once, as the
first-occurrence order of buckets among the filtered total-gender (`계`)
rows (`ageOrderOf`), and within each year group of the year×age output and
each (year, gender) group of the year×gender×age output the buckets appear
in that order (by their `catIndex` position, unseen buckets last); the group
keys of both outputs are moreover pairwise distinct, so "appear in exactly
that order" follows. -/
theorem claim_C3 (long_df : List LongRow) (gy : List GYRow) (ats : List ATRow)
    (ga : List GARow) (h : aggregate_general_households long_df = some (gy, ats, ga)) :
    bucketOrderAT (ageOrderOf long_df) ats ∧ bucketOrderGA (ageOrderOf long_df) ga ∧
    (ats.map (fun r : ATRow => (r.year, r.age))).Nodup ∧
    (ga.map (fun r : GARow => (r.year, r.gender, r.age))).Nodup := by
  obtain ⟨hats, hga⟩ := aggregate_some_elim long_df gy ats ga h
  refine ⟨?_, ?_, ?_, ?_⟩
  · intro i j hij hy
    have hpw : ats.Pairwise (fun x y => atLe (ageOrderOf long_df) x y = true) := by
      rw [hats]
      exact sortL_pairwise _ (atLe_trans _) (atLe_total _) _
    exact atLe_catIndex _ _ _ ((List.pairwise_iff_get.1 hpw) i j hij) hy
  · intro i j hij hy hg
    have hpw : ga.Pairwise (fun x y => gaLe (ageOrderOf long_df) x y = true) := by
      rw [hga]
      exact sortL_pairwise _ (gaLe_trans _) (gaLe_total _) _
    exact gaLe_catIndex _ _ _ ((List.pairwise_iff_get.1 hpw) i j hij) hy hg
  · have hperm : ats.Perm (groupAT ((filteredLong long_df).filter
        (fun r => decide (r.gender = Cell.str "계")))) := by
      rw [hats]
      exact (sortL_perm _ _).trans (sortL_perm _ _)
    rw [(hperm.map (fun r : ATRow => (r.year, r.age))).nodup_iff, groupAT_keys]
    exact dropDuplicates_nodup _
  · have hperm : ga.Perm (groupGA ((filteredLong long_df).filter
        (fun r => decide (r.gender = Cell.str "남자" ∨ r.gender = Cell.str "여자")))) := by
      rw [hga]
      exact (sortL_perm _ _).trans (sortL_perm _ _)
    rw [(hperm.map (fun r : GARow => (r.year, r.gender, r.age))).nodup_iff, groupGA_keys]
    exact dropDuplicates_nodup _

def c3df : List LongRow :=
  [⟨Cell.str "전국", Cell.str "계", Cell.str "합계", 2015, Cell.str "일반가구원", 100⟩,
   ⟨Cell.str "전국", Cell.str "계", Cell.str "65세이상", 2015, Cell.str "일반가구원", 30⟩,
   ⟨Cell.str "전국", Cell.str "계", Cell.str "0~4세", 2015, Cell.str "일반가구원", 10⟩,
   ⟨Cell.str "전국", Cell.str "남자", Cell.str "합계", 2015, Cell.str "일반가구원", 50⟩,
   ⟨Cell.str "전국", Cell.str "남자", Cell.str "65세이상", 2015, Cell.str "일반가구원", 15⟩,
   ⟨Cell.str "전국", Cell.str "여자", Cell.str "합계", 2015, Cell.str "일반가구원", 50⟩]

def c3gy : List GYRow :=
  [⟨2015, Cell.str "남자", 50⟩, ⟨2015, Cell.str "여자", 50⟩]

def c3ats : List ATRow :=
  [⟨2015, Cell.str "합계", 100⟩, ⟨2015, Cell.str "65세이상", 30⟩, ⟨2015, Cell.str "0~4세", 10⟩]

def c3ga : List GARow :=
  [⟨2015, Cell.str "남자", Cell.str "합계", 50⟩,
   ⟨2015, Cell.str "남자", Cell.str "65세이상", 15⟩,
   ⟨2015, Cell.str "여자", Cell.str "합계", 50⟩]

unseal Rat.add Rat.mul Rat.inv Rat.sub in
/-- C3 witness: a concrete long table whose `계` rows list the buckets in
the order 합계, 65세이상, 0~4세; the aggregates keep exactly that order
inside each year and (year, gender) group. -/
theorem claim_C3_witness :
    aggregate_general_households c3df = some (c3gy, c3ats, c3ga) ∧
    bucketOrderAT (ageOrderOf c3df) c3ats ∧ bucketOrderGA (ageOrderOf c3df) c3ga ∧
    (c3ats.map (fun r : ATRow => (r.year, r.age))).Nodup ∧
    (c3ga.map (fun r : GARow => (r.year, r.gender, r.age))).Nodup :=
  ⟨by decide, claim_C3 c3df c3gy c3ats c3ga (by decide)⟩
